import Mathlib

/-!
Verification development for the quote-pricing and availability engine
(src/quote_logic.py, src/google_calendar.py, src/config.py).

Conventions of the shallow embedding:
* Python floats holding money / hours are modelled as `ℚ`.
* Python ints are modelled as `ℤ`; `max(0, int(x))` becomes `max 0 x`.
* `round(x, 2)` is modelled as `round2` (round to cents).  Python rounds
  half-to-even on floats; at every value reached in the theorems below the
  scaled argument is never a half-integer tie, so the two conventions agree.
* A Python function that can raise is modelled with `Option`: `none` is the
  raised exception (here: the `UnboundLocalError` on `tv_size_val`).
* Times in the calendar module are minutes in the configured local timezone,
  relative to midnight of the service date (`08:00` = 480, `19:00` = 1140).
-/

set_option maxRecDepth 1400

/-- Round a rational to 2 decimal places (cents); models Python `round(x, 2)`. -/
def round2 (q : ℚ) : ℚ := ((round (q * 100) : ℤ) : ℚ) / 100

/-- Models Python `str.lower()` character by character (all strings compared
by the source are ASCII). -/
def str_lower (s : String) : String := String.mk (s.data.map Char.toLower)

/-! ## quote_logic.py -/

/-- Models `TaxConfig.default_rate` (src/quote_logic.py line 9). -/
def TAX_DEFAULT_RATE : ℚ := 6 / 100

/-- Models `determine_tax_rate` (src/quote_logic.py lines 15-26): returns the
default rate whether or not the zip string is empty. -/
def determine_tax_rate (zip_code : String) : ℚ :=
  if zip_code.trim = "" then TAX_DEFAULT_RATE else TAX_DEFAULT_RATE

/-- Models `adjust_for_wall_type` (src/quote_logic.py lines 48-64). -/
def adjust_for_wall_type (base_price : ℚ) (wall_type : String) : ℚ :=
  let wt := str_lower wall_type
  if wt = "brick" then base_price + 20
  else if wt = "concrete" ∨ wt = "stone" ∨ wt = "tile" ∨ wt = "tile/stone" then
    base_price + 30
  else base_price

/-- Models `adjust_for_concealment` (src/quote_logic.py lines 67-82). -/
def adjust_for_concealment (base_price : ℚ) (conceal_type : String) : ℚ :=
  let ct := str_lower conceal_type
  if ct = "on_wall" ∨ ct = "on-wall" ∨ ct = "raceway" then base_price + 40
  else if ct = "in_wall" ∨ ct = "in-wall" then base_price + 80
  else base_price

/-- Models `price_tv_addons` (src/quote_logic.py lines 85-97). -/
def price_tv_addons (base_price : ℚ) (soundbar led : Bool) : ℚ :=
  base_price + (if soundbar then 20 else 0) + (if led then 10 else 0)

/-- Models the keyword arguments of `calculate_quote`
(src/quote_logic.py lines 401-431).  `tv_sizes=None` and `tv_sizes=[]` are
indistinguishable after `tv_sizes = tv_sizes or []`, so the field is a list. -/
structure ServiceRequest where
  service : String := ""
  tv_size : ℤ := 0
  tv_count : ℤ := 0
  tv_sizes : List ℤ := []
  wall_type : String := "drywall"
  conceal_type : String := "none"
  soundbar : Bool := false
  shelves : Bool := false
  picture_count : ℤ := 0
  led : Bool := false
  same_day : Bool := false
  after_hours : Bool := false
  zip_code : String := ""
  closet_shelving : Bool := false
  closet_needs_materials : Bool := false
  decor_count : ℤ := 0
  shelves_count : ℤ := 0
  closet_shelf_count : ℤ := 0
  closet_shelf_not_sure : Bool := false
  tv_remove_count : ℤ := 0
  shelves_remove_count : ℤ := 0
  closet_remove_count : ℤ := 0
  decor_remove_count : ℤ := 0
  picture_large_count : ℤ := 0
  ladder_required : Bool := false
  parking_notes : String := ""
  preferred_contact : String := ""
  gallery_wall : Bool := false
deriving DecidableEq

/-- Models `tv_sizes_clean = [max(0, int(x)) for x in tv_sizes if int(x) > 0]`
(src/quote_logic.py line 443). -/
def tv_sizes_clean (r : ServiceRequest) : List ℤ :=
  (r.tv_sizes.filter (fun x => 0 < x)).map (fun x => max 0 x)

/-- Models the local `tv_count` after the reassignments on lines 446-447 and
456 of src/quote_logic.py: length of the clean size list when that is
non-empty, else the clamped legacy `tv_count`. -/
def tv_count_effective (r : ServiceRequest) : ℤ :=
  if tv_sizes_clean r = [] then max 0 r.tv_count
  else ((tv_sizes_clean r).length : ℤ)

/-- Models the local `tv_size_val` (src/quote_logic.py line 457): it is bound
only on the branch where the clean size list is empty; `none` marks the
branch on which the Python name stays unbound. -/
def tv_size_val_opt (r : ServiceRequest) : Option ℤ :=
  if tv_sizes_clean r = [] then some (max 0 r.tv_size) else none

/-- Models `base_tv_price` (src/quote_logic.py lines 450-460). -/
def base_tv_price (r : ServiceRequest) : ℚ :=
  if tv_sizes_clean r = [] then
    if 0 < max 0 r.tv_size ∧ 0 < max 0 r.tv_count then
      (if max 0 r.tv_size < 60 then (60 : ℚ) else 70) * ((max 0 r.tv_count : ℤ) : ℚ)
    else 0
  else
    (tv_sizes_clean r).foldl
      (fun acc size => acc + (if size < 60 then (60 : ℚ) else 70)) 0

/-- Models `tv_with_addons` (src/quote_logic.py lines 463-467). -/
def tv_with_addons (r : ServiceRequest) : ℚ :=
  price_tv_addons
    (adjust_for_concealment (adjust_for_wall_type (base_tv_price r) r.wall_type)
      r.conceal_type)
    r.soundbar r.led

/-- Models `tv_remove_total` (src/quote_logic.py lines 469-470). -/
def tv_remove_total (r : ServiceRequest) : ℚ :=
  ((max 0 r.tv_remove_count : ℤ) : ℚ) * 5

/-- Models `tv_total` (src/quote_logic.py line 472). -/
def tv_total (r : ServiceRequest) : ℚ := tv_with_addons r + tv_remove_total r

/-- Models `picture_total` before the large add-on
(src/quote_logic.py lines 483-489). -/
def picture_base_total (r : ServiceRequest) : ℚ :=
  if max 0 r.picture_count = 0 then 0
  else
    30 + 30 * ((⌈((max 0 (max 0 r.picture_count - 2) : ℤ) : ℚ) / 3⌉ : ℤ) : ℚ)

/-- Models `picture_large_total` (src/quote_logic.py lines 492-497). -/
def picture_large_total (r : ServiceRequest) : ℚ :=
  if 0 < max 0 r.picture_large_count then
    10 * ((⌈((max 0 r.picture_large_count : ℤ) : ℚ) / 2⌉ : ℤ) : ℚ)
  else 0

/-- Models the final `picture_total` (src/quote_logic.py line 499). -/
def picture_total (r : ServiceRequest) : ℚ :=
  picture_base_total r + picture_large_total r

/-- Models `shelves_price` (src/quote_logic.py lines 508-512); note the gate
on the boolean `shelves` flag. -/
def shelves_price (r : ServiceRequest) : ℚ :=
  if r.shelves ∧ 0 < max 0 r.shelves_count then
    60 * ((⌈((max 0 r.shelves_count : ℤ) : ℚ) / 2⌉ : ℤ) : ℚ)
  else 0

/-- Models `shelves_remove_total` (src/quote_logic.py lines 515-516). -/
def shelves_remove_total (r : ServiceRequest) : ℚ :=
  ((max 0 r.shelves_remove_count : ℤ) : ℚ) * 5

/-- Models `shelves_total` (src/quote_logic.py line 518). -/
def shelves_total (r : ServiceRequest) : ℚ :=
  shelves_price r + shelves_remove_total r

/-- Models `closet_labor_total` (src/quote_logic.py lines 528-534). -/
def closet_labor_total (r : ServiceRequest) : ℚ :=
  if r.closet_shelving ∧ 0 < max 0 r.closet_shelf_count then
    if max 0 r.closet_shelf_count = 1 then 60
    else 90 + ((max 0 (max 0 r.closet_shelf_count - 2) : ℤ) : ℚ) * 30
  else 0

/-- Models `closet_remove_total` (src/quote_logic.py lines 537-538). -/
def closet_remove_total (r : ServiceRequest) : ℚ :=
  ((max 0 r.closet_remove_count : ℤ) : ℚ) * 10

/-- Models `closet_total` (src/quote_logic.py line 540). -/
def closet_total (r : ServiceRequest) : ℚ :=
  closet_labor_total r + closet_remove_total r

/-- Models `decor_labor_total` (src/quote_logic.py lines 547-551). -/
def decor_labor_total (r : ServiceRequest) : ℚ :=
  if max 0 r.decor_count = 0 then 0
  else max 60 (20 * ((max 0 r.decor_count : ℤ) : ℚ))

/-- Models `decor_remove_total` (src/quote_logic.py lines 554-555). -/
def decor_remove_total (r : ServiceRequest) : ℚ :=
  ((max 0 r.decor_remove_count : ℤ) : ℚ) * 10

/-- Models `decor_total` (src/quote_logic.py line 557). -/
def decor_total (r : ServiceRequest) : ℚ :=
  decor_labor_total r + decor_remove_total r

/-- Models `service_subtotals` (src/quote_logic.py lines 563-569). -/
def service_subtotals (r : ServiceRequest) : List ℚ :=
  [tv_total r, picture_total r, shelves_total r, closet_total r, decor_total r]

/-- Models `num_services = sum(1 for v in service_subtotals if v > 0)`
(src/quote_logic.py line 570). -/
def num_services (r : ServiceRequest) : ℕ :=
  (service_subtotals r).countP (fun v => decide (0 < v))

/-- Models `gross_before_discount` (src/quote_logic.py line 573). -/
def gross_before_discount (r : ServiceRequest) : ℚ := (service_subtotals r).sum

/-- Models `multi_service_discount` (src/quote_logic.py lines 572-576). -/
def multi_service_discount (r : ServiceRequest) : ℚ :=
  if 2 ≤ num_services r ∧ 0 < gross_before_discount r then
    round2 (-(15 / 100) * gross_before_discount r)
  else 0

/-- Models `subtotal_before_tax` (src/quote_logic.py lines 589-599); the
same-day / after-hours surcharges are the constant 0 at quote time. -/
def subtotal_before_tax (r : ServiceRequest) : ℚ :=
  round2 (tv_total r + picture_total r + shelves_total r + closet_total r
    + decor_total r + multi_service_discount r + 0 + 0)

/-- Models `tax_amount` (src/quote_logic.py line 602). -/
def tax_amount (r : ServiceRequest) : ℚ :=
  round2 (subtotal_before_tax r * determine_tax_rate r.zip_code)

/-- Models `estimated_total_with_tax` (src/quote_logic.py line 603). -/
def estimated_total_with_tax (r : ServiceRequest) : ℚ :=
  round2 (subtotal_before_tax r + tax_amount r)

/-- Models `estimate_tv_hours` (src/quote_logic.py lines 298-310). -/
def estimate_tv_hours (tv_count tv_remove_count : ℤ) : ℚ :=
  ((max 0 tv_count : ℤ) : ℚ) * 1 + ((max 0 tv_remove_count : ℤ) : ℚ) * (1 / 4)

/-- Models `estimate_picture_hours` (src/quote_logic.py lines 313-329). -/
def estimate_picture_hours (picture_count : ℤ) : ℚ :=
  if max 0 picture_count = 0 then 0
  else max 1 ((1 / 2) * ((⌈((max 0 picture_count : ℤ) : ℚ) / 3⌉ : ℤ) : ℚ))

/-- Models `estimate_shelf_hours` (src/quote_logic.py lines 332-354). -/
def estimate_shelf_hours (shelves_count shelves_remove_count : ℤ) : ℚ :=
  (if 0 < max 0 shelves_count then
    max 1 ((1 / 2) * ((⌈((max 0 shelves_count : ℤ) : ℚ) / 2⌉ : ℤ) : ℚ))
  else 0) + ((max 0 shelves_remove_count : ℤ) : ℚ) * (1 / 4)

/-- Models `estimate_closet_hours` (src/quote_logic.py lines 357-377). -/
def estimate_closet_hours (closet_shelf_count closet_remove_count : ℤ) : ℚ :=
  (if 0 < max 0 closet_shelf_count then
    max 1 ((1 / 2) * ((max 0 closet_shelf_count : ℤ) : ℚ))
  else 0) + ((max 0 closet_remove_count : ℤ) : ℚ) * (1 / 3)

/-- Models `estimate_curtains_hours` (src/quote_logic.py lines 380-399). -/
def estimate_curtains_hours (decor_count decor_remove_count : ℤ) : ℚ :=
  (if 0 < max 0 decor_count then
    max 1 ((1 / 2) * ((max 0 decor_count : ℤ) : ℚ))
  else 0) + ((max 0 decor_remove_count : ℤ) : ℚ) * (1 / 3)

/-- Models the sum `estimated_hours` before clamping
(src/quote_logic.py lines 608-614). -/
def estimated_hours_raw (r : ServiceRequest) : ℚ :=
  estimate_tv_hours (tv_count_effective r) r.tv_remove_count
    + estimate_picture_hours r.picture_count
    + estimate_shelf_hours r.shelves_count r.shelves_remove_count
    + estimate_closet_hours r.closet_shelf_count r.closet_remove_count
    + estimate_curtains_hours r.decor_count r.decor_remove_count

/-- Models the clamp on `estimated_hours`
(src/quote_logic.py lines 617-619): set to 1.0 when ≤ 0, then cap at 8.0. -/
def estimated_hours_final (r : ServiceRequest) : ℚ :=
  min (if estimated_hours_raw r ≤ 0 then 1 else estimated_hours_raw r) 8

/-- Models the `line_items` mapping (src/quote_logic.py lines 624-638). -/
structure LineItems where
  tv_total : ℚ
  tv_remove_total : ℚ
  picture_total : ℚ
  picture_large_total : ℚ
  shelves_total : ℚ
  shelves_remove_total : ℚ
  closet_total : ℚ
  closet_remove_total : ℚ
  decor_total : ℚ
  decor_remove_total : ℚ
  multi_service_discount : ℚ
  same_day_surcharge : ℚ
  after_hours_surcharge : ℚ
deriving DecidableEq

/-- Models the result mapping of `calculate_quote`
(src/quote_logic.py lines 640-669). -/
structure QuoteResult where
  service : String
  line_items : LineItems
  subtotal_before_tax : ℚ
  tax_rate : ℚ
  tax_amount : ℚ
  estimated_total_with_tax : ℚ
  num_services : ℕ
  estimated_hours : ℚ
  closet_needs_materials : Bool
  decor_count : ℤ
  picture_count : ℤ
  picture_large_count : ℤ
  tv_size : ℤ
  tv_sizes : List ℤ
  tv_count : ℤ
  tv_remove_count : ℤ
  shelves_count : ℤ
  shelves_remove_count : ℤ
  closet_shelf_count : ℤ
  closet_shelf_not_sure : Bool
  closet_remove_count : ℤ
  decor_remove_count : ℤ
  ladder_required : Bool
  parking_notes : String
  preferred_contact : String
  gallery_wall : Bool
deriving DecidableEq

/-- Models `calculate_quote` (src/quote_logic.py lines 401-669).  The result
mapping reads the local `tv_size_val` (line 655), which is bound only when
the clean tv-size list is empty; on the other branch Python raises
`UnboundLocalError`, modelled here by `none`. -/
def calculate_quote (r : ServiceRequest) : Option QuoteResult :=
  match tv_size_val_opt r with
  | none => none
  | some tv_size_val =>
    some
      { service := r.service
        line_items :=
          { tv_total := round2 (tv_total r)
            tv_remove_total := round2 (tv_remove_total r)
            picture_total := round2 (picture_total r)
            picture_large_total := round2 (picture_large_total r)
            shelves_total := round2 (shelves_total r)
            shelves_remove_total := round2 (shelves_remove_total r)
            closet_total := round2 (closet_total r)
            closet_remove_total := round2 (closet_remove_total r)
            decor_total := round2 (decor_total r)
            decor_remove_total := round2 (decor_remove_total r)
            multi_service_discount := round2 (multi_service_discount r)
            same_day_surcharge := round2 0
            after_hours_surcharge := round2 0 }
        subtotal_before_tax := subtotal_before_tax r
        tax_rate := determine_tax_rate r.zip_code
        tax_amount := tax_amount r
        estimated_total_with_tax := estimated_total_with_tax r
        num_services := num_services r
        estimated_hours := round2 (estimated_hours_final r)
        closet_needs_materials := r.closet_needs_materials
        decor_count := max 0 r.decor_count
        picture_count := max 0 r.picture_count
        picture_large_count := max 0 r.picture_large_count
        tv_size := tv_size_val
        tv_sizes := tv_sizes_clean r
        tv_count := tv_count_effective r
        tv_remove_count := max 0 r.tv_remove_count
        shelves_count := max 0 r.shelves_count
        shelves_remove_count := max 0 r.shelves_remove_count
        closet_shelf_count := max 0 r.closet_shelf_count
        closet_shelf_not_sure := r.closet_shelf_not_sure
        closet_remove_count := max 0 r.closet_remove_count
        decor_remove_count := max 0 r.decor_remove_count
        ladder_required := r.ladder_required
        parking_notes := r.parking_notes
        preferred_contact := r.preferred_contact
        gallery_wall := r.gallery_wall }

/-! ## config.py -/

/-- Models `BLACKOUT_DATES` (src/config.py lines 24-28): the shipped set is
empty.  Dates are identified by an integer day index. -/
def BLACKOUT_DATES : List ℤ := []

/-- Models `BUSINESS_HOURS` (src/config.py lines 7-15): every weekday 0-6
maps to `(time(8,0), time(19,0))`, i.e. minutes (480, 1140). -/
def BUSINESS_HOURS (weekday : Fin 7) : Option (ℤ × ℤ) := some (480, 1140)

/-- Models `DEFAULT_JOB_DURATION_MIN` (src/config.py line 18). -/
def DEFAULT_JOB_DURATION_MIN : ℤ := 120

/-- Models `DEFAULT_BUFFER_MIN` (src/config.py line 21). -/
def DEFAULT_BUFFER_MIN : ℤ := 30

/-! ## google_calendar.py

Times are minutes in the configured local timezone relative to midnight of
the queried service date; `now` is the current time on that same scale.
The timezone normalisation (`astimezone`) is the identity in this model
because every interval is already expressed in local minutes.  The
presentational `label` field of a slot is omitted. -/

/-- A calendar date: its day index and its weekday (`date.weekday()`). -/
structure CalDate where
  day : ℤ
  weekday : Fin 7
deriving DecidableEq

/-- A busy interval reported by the Freebusy query
(src/google_calendar.py lines 117-123). -/
structure BusyInterval where
  busy_start : ℤ
  busy_stop : ℤ
deriving DecidableEq

/-- One availability slot (src/google_calendar.py lines 207-213), without
the presentational `label`. -/
structure Slot where
  slot_start : ℤ
  slot_stop : ℤ
  is_same_day : Bool
  is_after_hours : Bool
deriving DecidableEq

/-- Models `_overlaps` (src/google_calendar.py lines 126-130): strict
interval overlap. -/
def overlaps_strict (a_start a_stop b_start b_stop : ℤ) : Bool :=
  decide (max a_start b_start < min a_stop b_stop)

/-- Models the `while cursor + job_delta <= day_end` loop of
`get_available_slots_for_date` (src/google_calendar.py lines 179-216).
The loop has no structural termination measure (the cursor advances by
`buffer_delta`, which may be 0), so it is given fuel: `none` means the
loop did not finish within `fuel` iterations. -/
def slot_scan (job_delta buffer_delta now day_end : ℤ) (busy : List BusyInterval)
    (same_day : Bool) : ℕ → ℤ → Option (List Slot)
  | 0, _ => none
  | fuel + 1, cursor =>
    if cursor + job_delta ≤ day_end then
      if cursor + job_delta ≤ now then
        slot_scan job_delta buffer_delta now day_end busy same_day fuel
          (cursor + buffer_delta)
      else if busy.any (fun b =>
          overlaps_strict cursor (cursor + job_delta)
            (b.busy_start - buffer_delta) (b.busy_stop + buffer_delta)) then
        slot_scan job_delta buffer_delta now day_end busy same_day fuel
          (cursor + buffer_delta)
      else
        (slot_scan job_delta buffer_delta now day_end busy same_day fuel
            (cursor + buffer_delta)).map
          (fun rest =>
            { slot_start := cursor
              slot_stop := cursor + job_delta
              is_same_day := same_day
              is_after_hours := decide (1080 ≤ cursor) } :: rest)
    else some []

/-- Models `get_available_slots_for_date` (src/google_calendar.py lines
133-218).  `fetch` is the outcome of the single `get_busy_intervals` call:
a fetch failure (`Except.error`) propagates, because the source wraps the
call in no `try`/`except`.  The outer `Option` is the scan fuel: `none`
means the candidate loop never terminated. -/
def get_available_slots_for_date {ε : Type} (fuel : ℕ)
    (fetch : Except ε (List BusyInterval)) (service_date : CalDate)
    (today now job_duration_min buffer_min : ℤ) :
    Option (Except ε (List Slot)) :=
  if service_date.day ∈ BLACKOUT_DATES then some (Except.ok [])
  else
    match BUSINESS_HOURS service_date.weekday with
    | none => some (Except.ok [])
    | some (open_min, close_min) =>
      match fetch with
      | Except.error e => some (Except.error e)
      | Except.ok busy_intervals =>
        (slot_scan job_duration_min buffer_min now close_min busy_intervals
            (decide (service_date.day = today)) fuel open_min).map Except.ok

deriving instance DecidableEq for Except

/-- Number of `get_busy_intervals` calls performed along the control flow of
`get_available_slots_for_date` (src/google_calendar.py lines 149-168): 0 on
the blackout / closed-weekday early returns, 1 once line 168 is reached. -/
def busy_fetch_count (service_date : CalDate) : ℕ :=
  if service_date.day ∈ BLACKOUT_DATES then 0
  else
    match BUSINESS_HOURS service_date.weekday with
    | none => 0
    | some _ => 1

/-! ## Concrete inputs and expected values used by individual claims -/

/-- All-zero line items, used only as the `Option.getD` fallback when naming
the concrete quote a given request evaluates to. -/
def li_default : LineItems where
  tv_total := 0
  tv_remove_total := 0
  picture_total := 0
  picture_large_total := 0
  shelves_total := 0
  shelves_remove_total := 0
  closet_total := 0
  closet_remove_total := 0
  decor_total := 0
  decor_remove_total := 0
  multi_service_discount := 0
  same_day_surcharge := 0
  after_hours_surcharge := 0

/-- All-zero quote, used only as the `Option.getD` fallback when naming the
concrete quote a given request evaluates to. -/
def qdefault : QuoteResult where
  service := ""
  line_items := li_default
  subtotal_before_tax := 0
  tax_rate := 0
  tax_amount := 0
  estimated_total_with_tax := 0
  num_services := 0
  estimated_hours := 0
  closet_needs_materials := false
  decor_count := 0
  picture_count := 0
  picture_large_count := 0
  tv_size := 0
  tv_sizes := []
  tv_count := 0
  tv_remove_count := 0
  shelves_count := 0
  shelves_remove_count := 0
  closet_shelf_count := 0
  closet_shelf_not_sure := false
  closet_remove_count := 0
  decor_remove_count := 0
  ladder_required := false
  parking_notes := ""
  preferred_contact := ""
  gallery_wall := false

/-- The request of the spec scenario: one 55-inch TV on drywall, no
concealment, all other counts zero, ZIP 20735. -/
def creq1 : ServiceRequest where
  tv_sizes := [55]
  wall_type := "drywall"
  conceal_type := "none"
  picture_count := 0
  shelves_count := 0
  closet_shelf_count := 0
  decor_count := 0
  zip_code := "20735"

/-- A request whose clean tv-size list is non-empty (one 65-inch TV). -/
def creq2w : ServiceRequest := { tv_sizes := [65] }

/-- A request with a single TV removal and nothing else. -/
def creq3 : ServiceRequest := { tv_remove_count := 1 }

/-- The quote `creq3` evaluates to. -/
def quote3 : QuoteResult := (calculate_quote creq3).getD qdefault

/-- One floating shelf requested by count while the `shelves` flag is off. -/
def creq4x : ServiceRequest := { shelves := false, shelves_count := 1 }

/-- Three shelf installs and two shelf removals with the `shelves` flag on. -/
def creq4w : ServiceRequest where
  shelves := true
  shelves_count := 3
  shelves_remove_count := 2

/-- The quote `creq4w` evaluates to. -/
def quote4w : QuoteResult := (calculate_quote creq4w).getD qdefault

/-- No TVs at all, but a brick wall type. -/
def creq5x : ServiceRequest := { wall_type := "brick" }

/-- No TVs at all, but stone wall, in-wall concealment and a soundbar. -/
def creq5w : ServiceRequest where
  wall_type := "stone"
  conceal_type := "in_wall"
  soundbar := true

/-- The quote `creq5w` evaluates to. -/
def quote5w : QuoteResult := (calculate_quote creq5w).getD qdefault

/-- One TV removal and one shelf removal: exactly two chargeable
categories, $5 each. -/
def creq6 : ServiceRequest := { tv_remove_count := 1, shelves_remove_count := 1 }

/-- The quote `creq6` evaluates to. -/
def quote6 : QuoteResult := (calculate_quote creq6).getD qdefault

/-- One busy interval 10:00-11:00 (minutes 600-660). -/
def c7_busy : List BusyInterval := [⟨600, 660⟩]

/-- Slots the scan emits around the 10:00-11:00 booking with a 30-minute
buffer: every candidate before 11:30 conflicts with the buffered interval
[09:30, 11:30], so the first surviving start is 11:30 (minute 690). -/
def c7_slots : List Slot := [⟨690, 810, false, false⟩, ⟨720, 840, false, false⟩, ⟨750, 870, false, false⟩, ⟨780, 900, false, false⟩, ⟨810, 930, false, false⟩, ⟨840, 960, false, false⟩, ⟨870, 990, false, false⟩, ⟨900, 1020, false, false⟩, ⟨930, 1050, false, false⟩, ⟨960, 1080, false, false⟩, ⟨990, 1110, false, false⟩, ⟨1020, 1140, false, false⟩]

/-- The 19 slots of a free 08:00-19:00 day scanned with a 120-minute job and
a 30-minute step; `b` is the day's `is_same_day` flag. -/
def c8_slots (b : Bool) : List Slot := [⟨480, 600, b, false⟩, ⟨510, 630, b, false⟩, ⟨540, 660, b, false⟩, ⟨570, 690, b, false⟩, ⟨600, 720, b, false⟩, ⟨630, 750, b, false⟩, ⟨660, 780, b, false⟩, ⟨690, 810, b, false⟩, ⟨720, 840, b, false⟩, ⟨750, 870, b, false⟩, ⟨780, 900, b, false⟩, ⟨810, 930, b, false⟩, ⟨840, 960, b, false⟩, ⟨870, 990, b, false⟩, ⟨900, 1020, b, false⟩, ⟨930, 1050, b, false⟩, ⟨960, 1080, b, false⟩, ⟨990, 1110, b, false⟩, ⟨1020, 1140, b, false⟩]

/-! ## Shared lemmas -/

theorem round2_intCast (z : ℤ) : round2 ((z : ℚ)) = (z : ℚ) := by
  unfold round2
  have h : ((z : ℚ) * 100) = ((z * 100 : ℤ) : ℚ) := by push_cast; ring
  rw [h, round_intCast]
  push_cast
  field_simp

/-- Values of the form `(z : ℚ)` for an integer `z`; rounding to cents fixes
them. -/
def IsIntVal (q : ℚ) : Prop := ∃ z : ℤ, q = (z : ℚ)

theorem round2_of_isIntVal {q : ℚ} (h : IsIntVal q) : round2 q = q := by
  obtain ⟨z, rfl⟩ := h; exact round2_intCast z

theorem round2_mono {a b : ℚ} (h : a ≤ b) : round2 a ≤ round2 b := by
  unfold round2
  have hr : round (a * 100) ≤ round (b * 100) := by
    rw [round_eq, round_eq]
    exact Int.floor_le_floor (by linarith)
  have hc : ((round (a * 100) : ℤ) : ℚ) ≤ ((round (b * 100) : ℤ) : ℚ) := by
    exact_mod_cast hr
  linarith

theorem round2_idem (q : ℚ) : round2 (round2 q) = round2 q := by
  unfold round2
  rw [div_mul_cancel₀ _ (by norm_num : (100:ℚ) ≠ 0), round_intCast]

theorem isIntVal_intCast (z : ℤ) : IsIntVal ((z : ℚ)) := ⟨z, rfl⟩

theorem isIntVal_add {a b : ℚ} (ha : IsIntVal a) (hb : IsIntVal b) :
    IsIntVal (a + b) := by
  obtain ⟨x, rfl⟩ := ha; obtain ⟨y, rfl⟩ := hb
  exact ⟨x + y, by push_cast; ring⟩

theorem calculate_quote_eq_none (r : ServiceRequest) (h : tv_sizes_clean r ≠ []) :
    calculate_quote r = none := by
  simp only [calculate_quote, tv_size_val_opt, if_neg h]

theorem calculate_quote_fields (r : ServiceRequest) (q : QuoteResult)
    (h : calculate_quote r = some q) :
    q.line_items.tv_total = round2 (tv_total r)
    ∧ q.line_items.shelves_total = round2 (shelves_total r)
    ∧ q.line_items.shelves_remove_total = round2 (shelves_remove_total r)
    ∧ q.line_items.multi_service_discount = round2 (multi_service_discount r)
    ∧ q.estimated_hours = round2 (estimated_hours_final r) := by
  unfold calculate_quote at h
  split at h
  · exact absurd h (by simp)
  · rw [Option.some.injEq] at h
    subst h
    exact ⟨rfl, rfl, rfl, rfl, rfl⟩

theorem calculate_quote_some_tv_sizes_clean (r : ServiceRequest) (q : QuoteResult)
    (h : calculate_quote r = some q) : tv_sizes_clean r = [] := by
  by_contra hne
  rw [calculate_quote_eq_none r hne] at h
  exact Option.noConfusion h

/-- Claim C1: for the scenario request (one 55-inch TV, drywall, no
concealment, all other counts zero, ZIP 20735) the pricing pipeline does
produce tv_total 60, one service, no discount, 6% tax and a taxed total of
round2(60 × 1.06) — but `calculate_quote` itself reaches the unbound local
`tv_size_val` and raises instead of returning that quote. -/
theorem c1_single_tv_scenario :
    tv_total creq1 = 60
    ∧ num_services creq1 = 1
    ∧ multi_service_discount creq1 = 0
    ∧ determine_tax_rate creq1.zip_code = 6 / 100
    ∧ estimated_total_with_tax creq1 = round2 (60 * (1 + 6 / 100))
    ∧ calculate_quote creq1 = none := by
  with_unfolding_all decide

/-- Claim C2: whenever the cleaned tv-size list is non-empty,
`calculate_quote` hits the unbound local `tv_size_val` while building its
result and returns no quote. -/
theorem c2_nonempty_tv_sizes_no_result (r : ServiceRequest)
    (h : tv_sizes_clean r ≠ []) : calculate_quote r = none :=
  calculate_quote_eq_none r h

/-- Witness for C2 at the concrete request with one 65-inch TV. -/
theorem c2_nonempty_tv_sizes_no_result_witness :
    tv_sizes_clean creq2w ≠ [] ∧ calculate_quote creq2w = none :=
  ⟨by with_unfolding_all decide,
    c2_nonempty_tv_sizes_no_result creq2w (by with_unfolding_all decide)⟩

/-- A quantity that is either exactly 0 or at least `t`, and never negative.
Every category subtotal has this shape with `t = 5` (dollars), every
category hour estimate with `t = 1/4` (hours). -/
def AtLeastOr0 (t q : ℚ) : Prop := 0 ≤ q ∧ (q = 0 ∨ t ≤ q)

theorem atLeastOr0_zero (t : ℚ) : AtLeastOr0 t 0 := ⟨le_refl 0, Or.inl rfl⟩

theorem atLeastOr0_of_le {t q : ℚ} (h0 : 0 ≤ q) (h : t ≤ q) : AtLeastOr0 t q :=
  ⟨h0, Or.inr h⟩

theorem atLeastOr0_add {t a b : ℚ} (ha : AtLeastOr0 t a) (hb : AtLeastOr0 t b) :
    AtLeastOr0 t (a + b) := by
  obtain ⟨ha0, ha'⟩ := ha
  obtain ⟨hb0, hb'⟩ := hb
  refine ⟨by linarith, ?_⟩
  rcases ha' with rfl | ha5
  · rcases hb' with rfl | hb5
    · exact Or.inl (by ring)
    · exact Or.inr (by linarith)
  · exact Or.inr (by linarith)

theorem atLeastOr0_cast_mul {t k : ℚ} (htk : t ≤ k) (hk : 0 ≤ k) (c : ℤ)
    (hc : 0 ≤ c) : AtLeastOr0 t ((c : ℚ) * k) := by
  rcases eq_or_lt_of_le hc with rfl | hpos
  · simpa using atLeastOr0_zero t
  · have h1 : (1 : ℚ) ≤ (c : ℚ) := by exact_mod_cast hpos
    refine atLeastOr0_of_le (by positivity) ?_
    calc t ≤ k := htk
    _ = 1 * k := by ring
    _ ≤ (c : ℚ) * k := by
      exact mul_le_mul_of_nonneg_right h1 hk

theorem atLeastOr0_mul_cast {t k : ℚ} (htk : t ≤ k) (hk : 0 ≤ k) (c : ℤ)
    (hc : 0 ≤ c) : AtLeastOr0 t (k * (c : ℚ)) := by
  rw [mul_comm]; exact atLeastOr0_cast_mul htk hk c hc

theorem atLeastOr0_sum_nonneg {t : ℚ} :
    ∀ (l : List ℚ), (∀ v ∈ l, AtLeastOr0 t v) → 0 ≤ l.sum := by
  intro l h
  exact List.sum_nonneg fun v hv => (h v hv).1

theorem atLeastOr0_sum_count {t : ℚ} :
    ∀ (l : List ℚ), (∀ v ∈ l, AtLeastOr0 t v) →
      ∀ n : ℕ, n ≤ l.countP (fun v => decide (0 < v)) → t * n ≤ l.sum := by
  intro l
  induction l with
  | nil =>
    intro _ n hn
    simp only [List.countP_nil, Nat.le_zero] at hn
    simp [hn]
  | cons v l ih =>
    intro h n hn
    have hv := h v (List.mem_cons_self v l)
    have hl := fun w hw => h w (List.mem_cons_of_mem v hw)
    rw [List.countP_cons] at hn
    rw [List.sum_cons]
    by_cases hpos : 0 < v
    · rw [if_pos (by simpa using hpos)] at hn
      rcases n with _ | m
      · have := atLeastOr0_sum_nonneg l hl
        simp only [Nat.cast_zero, mul_zero]
        linarith [hv.1]
      · have hm : m ≤ l.countP (fun v => decide (0 < v)) := by omega
        have hsum := ih hl m hm
        have hv5 : t ≤ v := by
          rcases hv.2 with rfl | h5
          · exact absurd hpos (lt_irrefl 0)
          · exact h5
        push_cast
        linarith
    · rw [if_neg (by simpa using hpos), Nat.add_zero] at hn
      have hsum := ih hl n hn
      linarith [hv.1]

theorem sum_filter_pos_eq_sum :
    ∀ (l : List ℚ), (∀ v ∈ l, 0 ≤ v) →
      (l.filter (fun v => decide (0 < v))).sum = l.sum := by
  intro l
  induction l with
  | nil => intro _; rfl
  | cons v l ih =>
    intro h
    have hv := h v (List.mem_cons_self v l)
    have hl := fun w hw => h w (List.mem_cons_of_mem v hw)
    rw [List.filter_cons, List.sum_cons]
    by_cases hpos : 0 < v
    · rw [if_pos (by simpa using hpos), List.sum_cons, ih hl]
    · have hv0 : v = 0 := le_antisymm (not_lt.mp hpos) hv
      rw [if_neg (by simpa using hpos), ih hl, hv0, zero_add]

theorem money_ite_addon {t : ℚ} (c : Prop) [Decidable c] {k : ℚ} (htk : t ≤ k)
    (hk : 0 ≤ k) : AtLeastOr0 t (if c then k else 0) := by
  split
  · exact atLeastOr0_of_le hk htk
  · exact atLeastOr0_zero t

theorem money_base_tv_foldl (l : List ℤ) :
    ∀ acc : ℚ, AtLeastOr0 5 acc →
      AtLeastOr0 5 (l.foldl (fun a s => a + if s < 60 then (60 : ℚ) else 70) acc) := by
  induction l with
  | nil => intro acc h; simpa using h
  | cons s l ih =>
    intro acc h
    rw [List.foldl_cons]
    refine ih _ (atLeastOr0_add h ?_)
    split
    · exact atLeastOr0_of_le (by norm_num) (by norm_num)
    · exact atLeastOr0_of_le (by norm_num) (by norm_num)

theorem money_base_tv_price (r : ServiceRequest) : AtLeastOr0 5 (base_tv_price r) := by
  unfold base_tv_price
  split
  · split
    · refine atLeastOr0_mul_cast ?_ ?_ _ (le_max_left 0 r.tv_count)
      · split <;> norm_num
      · split <;> norm_num
    · exact atLeastOr0_zero 5
  · exact money_base_tv_foldl _ 0 (atLeastOr0_zero 5)

theorem money_adjust_wall {b : ℚ} (w : String) (hb : AtLeastOr0 5 b) :
    AtLeastOr0 5 (adjust_for_wall_type b w) := by
  rw [adjust_for_wall_type]
  have h0 := hb.1
  split
  · exact atLeastOr0_of_le (by linarith) (by linarith)
  · split
    · exact atLeastOr0_of_le (by linarith) (by linarith)
    · exact hb

theorem money_adjust_conceal {b : ℚ} (c : String) (hb : AtLeastOr0 5 b) :
    AtLeastOr0 5 (adjust_for_concealment b c) := by
  rw [adjust_for_concealment]
  have h0 := hb.1
  split
  · exact atLeastOr0_of_le (by linarith) (by linarith)
  · split
    · exact atLeastOr0_of_le (by linarith) (by linarith)
    · exact hb

theorem money_tv_addons {b : ℚ} (sb ld : Bool) (hb : AtLeastOr0 5 b) :
    AtLeastOr0 5 (price_tv_addons b sb ld) := by
  unfold price_tv_addons
  exact atLeastOr0_add (atLeastOr0_add hb
    (money_ite_addon _ (by norm_num) (by norm_num)))
    (money_ite_addon _ (by norm_num) (by norm_num))

theorem money_tv_total (r : ServiceRequest) : AtLeastOr0 5 (tv_total r) := by
  unfold tv_total tv_with_addons tv_remove_total
  exact atLeastOr0_add
    (money_tv_addons _ _ (money_adjust_conceal _ (money_adjust_wall _ (money_base_tv_price r))))
    (atLeastOr0_cast_mul (by norm_num) (by norm_num) _ (le_max_left 0 r.tv_remove_count))

theorem ceil_div_cast_nonneg (c : ℤ) (d : ℚ) (hd : 0 < d) :
    (0 : ℤ) ≤ ⌈((max 0 c : ℤ) : ℚ) / d⌉ := by
  apply Int.ceil_nonneg
  apply div_nonneg _ (le_of_lt hd)
  exact_mod_cast le_max_left 0 c

theorem money_picture_total (r : ServiceRequest) : AtLeastOr0 5 (picture_total r) := by
  unfold picture_total picture_base_total picture_large_total
  refine atLeastOr0_add ?_ ?_
  · split
    · exact atLeastOr0_zero 5
    · have hc : (0 : ℚ) ≤ ((⌈((max 0 (max 0 r.picture_count - 2) : ℤ) : ℚ) / 3⌉ : ℤ) : ℚ) := by
        exact_mod_cast ceil_div_cast_nonneg _ 3 (by norm_num)
      exact atLeastOr0_of_le (by linarith) (by linarith)
  · split
    · exact atLeastOr0_mul_cast (by norm_num) (by norm_num) _
        (ceil_div_cast_nonneg _ 2 (by norm_num))
    · exact atLeastOr0_zero 5

theorem money_shelves_total (r : ServiceRequest) : AtLeastOr0 5 (shelves_total r) := by
  unfold shelves_total shelves_price shelves_remove_total
  refine atLeastOr0_add ?_
    (atLeastOr0_cast_mul (by norm_num) (by norm_num) _ (le_max_left 0 r.shelves_remove_count))
  split
  · exact atLeastOr0_mul_cast (by norm_num) (by norm_num) _
      (ceil_div_cast_nonneg _ 2 (by norm_num))
  · exact atLeastOr0_zero 5

theorem money_closet_total (r : ServiceRequest) : AtLeastOr0 5 (closet_total r) := by
  unfold closet_total closet_labor_total closet_remove_total
  refine atLeastOr0_add ?_
    (atLeastOr0_cast_mul (by norm_num) (by norm_num) _ (le_max_left 0 r.closet_remove_count))
  split
  · split
    · exact atLeastOr0_of_le (by norm_num) (by norm_num)
    · have hz : (0 : ℚ) ≤ ((max 0 (max 0 r.closet_shelf_count - 2) : ℤ) : ℚ) := by
        exact_mod_cast le_max_left 0 (max 0 r.closet_shelf_count - 2)
      exact atLeastOr0_of_le (by linarith) (by linarith)
  · exact atLeastOr0_zero 5

theorem money_decor_total (r : ServiceRequest) : AtLeastOr0 5 (decor_total r) := by
  unfold decor_total decor_labor_total decor_remove_total
  refine atLeastOr0_add ?_
    (atLeastOr0_cast_mul (by norm_num) (by norm_num) _ (le_max_left 0 r.decor_remove_count))
  split
  · exact atLeastOr0_zero 5
  · refine atLeastOr0_of_le ?_ (le_trans (by norm_num) (le_max_left 60 _))
    exact le_trans (by norm_num) (le_max_left 60 _)

theorem money_subtotals (r : ServiceRequest) :
    ∀ v ∈ service_subtotals r, AtLeastOr0 5 v := by
  intro v hv
  simp only [service_subtotals, List.mem_cons, List.not_mem_nil, or_false] at hv
  rcases hv with rfl | rfl | rfl | rfl | rfl
  · exact money_tv_total r
  · exact money_picture_total r
  · exact money_shelves_total r
  · exact money_closet_total r
  · exact money_decor_total r

/-- Claim C6: the multi-service discount line item is non-zero exactly when
at least two of the five category subtotals are positive, and it then equals
-15% of the sum of the positive category subtotals, rounded to cents. -/
theorem c6_multi_service_discount (r : ServiceRequest) (q : QuoteResult)
    (h : calculate_quote r = some q) :
    (q.line_items.multi_service_discount ≠ 0 ↔ 2 ≤ num_services r)
    ∧ (2 ≤ num_services r →
        q.line_items.multi_service_discount
          = round2 (-(15 / 100)
              * ((service_subtotals r).filter (fun v => decide (0 < v))).sum)) := by
  have hM := money_subtotals r
  have hnn : ∀ v ∈ service_subtotals r, (0 : ℚ) ≤ v := fun v hv => (hM v hv).1
  have hfil : ((service_subtotals r).filter (fun v => decide (0 < v))).sum
      = gross_before_discount r := sum_filter_pos_eq_sum _ hnn
  have hdisc := (calculate_quote_fields r q h).2.2.2.1
  have hr0 : round2 0 = 0 := by with_unfolding_all decide
  have hr32 : round2 (-(3 / 2)) = -(3 / 2) := by with_unfolding_all decide
  have key : 2 ≤ num_services r →
      q.line_items.multi_service_discount
        = round2 (-(15 / 100) * gross_before_discount r)
      ∧ q.line_items.multi_service_discount ≠ 0 := by
    intro h2
    have h10 : (10 : ℚ) ≤ gross_before_discount r := by
      have hc := atLeastOr0_sum_count (service_subtotals r) hM 2 h2
      unfold gross_before_discount
      push_cast at hc
      linarith
    have hpos : (0 : ℚ) < gross_before_discount r := by linarith
    have hmulti : multi_service_discount r
        = round2 (-(15 / 100) * gross_before_discount r) := by
      unfold multi_service_discount
      rw [if_pos ⟨h2, hpos⟩]
    have hline : q.line_items.multi_service_discount
        = round2 (-(15 / 100) * gross_before_discount r) := by
      rw [hdisc, hmulti, round2_idem]
    refine ⟨hline, ?_⟩
    have hle : -(15 / 100) * gross_before_discount r ≤ -(3 / 2) := by linarith
    have := round2_mono hle
    rw [hr32] at this
    rw [hline]
    intro hzero
    rw [hzero] at this
    linarith
  constructor
  · constructor
    · intro hne
      by_contra hn2
      have hmulti0 : multi_service_discount r = 0 := by
        unfold multi_service_discount
        rw [if_neg]
        intro hand
        exact hn2 hand.1
      rw [hdisc, hmulti0, hr0] at hne
      exact hne rfl
    · intro h2
      exact (key h2).2
  · intro h2
    rw [hfil]
    exact (key h2).1

/-- Witness for C6 at a request with one TV removal and one shelf removal. -/
theorem c6_multi_service_discount_witness :
    quote6.line_items.multi_service_discount ≠ 0
    ∧ quote6.line_items.multi_service_discount
        = round2 (-(15 / 100)
            * ((service_subtotals creq6).filter (fun v => decide (0 < v))).sum) := by
  have h := c6_multi_service_discount creq6 quote6 (by with_unfolding_all decide)
  exact ⟨h.1.mpr (by with_unfolding_all decide), h.2 (by with_unfolding_all decide)⟩

theorem hours_tv (c r' : ℤ) : AtLeastOr0 (1 / 4) (estimate_tv_hours c r') := by
  unfold estimate_tv_hours
  exact atLeastOr0_add
    (atLeastOr0_cast_mul (by norm_num) (by norm_num) _ (le_max_left 0 c))
    (atLeastOr0_cast_mul (by norm_num) (by norm_num) _ (le_max_left 0 r'))

theorem hours_max_one {x : ℚ} : AtLeastOr0 (1 / 4) (max 1 x) :=
  atLeastOr0_of_le (le_trans (by norm_num) (le_max_left 1 x))
    (le_trans (by norm_num) (le_max_left 1 x))

theorem hours_picture (c : ℤ) : AtLeastOr0 (1 / 4) (estimate_picture_hours c) := by
  unfold estimate_picture_hours
  split
  · exact atLeastOr0_zero _
  · exact hours_max_one

theorem hours_shelf (c r' : ℤ) : AtLeastOr0 (1 / 4) (estimate_shelf_hours c r') := by
  unfold estimate_shelf_hours
  refine atLeastOr0_add ?_
    (atLeastOr0_cast_mul (by norm_num) (by norm_num) _ (le_max_left 0 r'))
  split
  · exact hours_max_one
  · exact atLeastOr0_zero _

theorem hours_closet (c r' : ℤ) : AtLeastOr0 (1 / 4) (estimate_closet_hours c r') := by
  unfold estimate_closet_hours
  refine atLeastOr0_add ?_
    (atLeastOr0_cast_mul (by norm_num) (by norm_num) _ (le_max_left 0 r'))
  split
  · exact hours_max_one
  · exact atLeastOr0_zero _

theorem hours_curtains (c r' : ℤ) : AtLeastOr0 (1 / 4) (estimate_curtains_hours c r') := by
  unfold estimate_curtains_hours
  refine atLeastOr0_add ?_
    (atLeastOr0_cast_mul (by norm_num) (by norm_num) _ (le_max_left 0 r'))
  split
  · exact hours_max_one
  · exact atLeastOr0_zero _

theorem hours_raw (r : ServiceRequest) : AtLeastOr0 (1 / 4) (estimated_hours_raw r) := by
  unfold estimated_hours_raw
  exact atLeastOr0_add (atLeastOr0_add (atLeastOr0_add (atLeastOr0_add
    (hours_tv _ _) (hours_picture _)) (hours_shelf _ _)) (hours_closet _ _))
    (hours_curtains _ _)

/-- Claim C3 (amended): every returned quote's `estimated_hours` lies in
[0.25, 8]; the lower clamp to 1.0 fires only when the raw sum is ≤ 0, so
small fractional totals such as 0.25 pass through. -/
theorem c3_estimated_hours_bounds (r : ServiceRequest) (q : QuoteResult)
    (h : calculate_quote r = some q) :
    1 / 4 ≤ q.estimated_hours ∧ q.estimated_hours ≤ 8 := by
  have hfield := (calculate_quote_fields r q h).2.2.2.2
  have hraw := hours_raw r
  have hfin : 1 / 4 ≤ estimated_hours_final r ∧ estimated_hours_final r ≤ 8 := by
    unfold estimated_hours_final
    constructor
    · apply le_min _ (by norm_num)
      split
      · norm_num
      · rcases hraw.2 with h0 | h4
        · rename_i hnle
          exact absurd (le_of_eq h0) hnle
        · exact h4
    · exact min_le_right _ 8
  have h14 : round2 (1 / 4) = 1 / 4 := by with_unfolding_all decide
  have h8 : round2 8 = 8 := by with_unfolding_all decide
  constructor
  · rw [hfield, ← h14]
    exact round2_mono hfin.1
  · rw [hfield, ← h8]
    exact round2_mono hfin.2

/-- Counterexample for C3 as stated: a request with a single TV removal and
nothing else yields `estimated_hours = 0.25`, outside [1.0, 8.0]. -/
theorem c3_estimated_hours_counterexample :
    (calculate_quote creq3).map QuoteResult.estimated_hours = some (1 / 4)
    ∧ ¬ ((1 : ℚ) ≤ 1 / 4) := by
  with_unfolding_all decide

/-- Witness for the amended C3 at the same concrete request. -/
theorem c3_estimated_hours_bounds_witness :
    1 / 4 ≤ quote3.estimated_hours ∧ quote3.estimated_hours ≤ 8 :=
  c3_estimated_hours_bounds creq3 quote3 (by with_unfolding_all decide)

/-! ## Lemmas for the availability engine -/

theorem get_avail_ok {ε : Type} (fuel : ℕ) (busy : List BusyInterval)
    (sdate : CalDate) (today now jd bd : ℤ) :
    get_available_slots_for_date fuel (Except.ok busy : Except ε (List BusyInterval))
        sdate today now jd bd
      = (slot_scan jd bd now 1140 busy (decide (sdate.day = today)) fuel 480).map
          Except.ok := by
  unfold get_available_slots_for_date BLACKOUT_DATES BUSINESS_HOURS
  simp

theorem get_avail_err {ε : Type} (fuel : ℕ) (e : ε) (sdate : CalDate)
    (today now jd bd : ℤ) :
    get_available_slots_for_date fuel
        (Except.error e : Except ε (List BusyInterval)) sdate today now jd bd
      = some (Except.error e) := by
  unfold get_available_slots_for_date BLACKOUT_DATES BUSINESS_HOURS
  simp

theorem slot_scan_no_overlap (jd bd now de : ℤ) (busy : List BusyInterval)
    (sd : Bool) :
    ∀ (fuel : ℕ) (cursor : ℤ) (slots : List Slot),
      slot_scan jd bd now de busy sd fuel cursor = some slots →
      ∀ s ∈ slots, ∀ b ∈ busy,
        overlaps_strict s.slot_start s.slot_stop
          (b.busy_start - bd) (b.busy_stop + bd) = false := by
  intro fuel
  induction fuel with
  | zero => intro cursor slots h; exact absurd h (by simp [slot_scan])
  | succ n ih =>
    intro cursor slots h
    rw [slot_scan] at h
    split at h
    · split at h
      · exact ih _ _ h
      · split at h
        · exact ih _ _ h
        · rename_i hany
          rcases Option.map_eq_some'.mp h with ⟨rest, hrest, hslots⟩
          subst hslots
          intro s hs b hb
          rcases List.mem_cons.mp hs with rfl | hmem
          · have hfalse : busy.any (fun b => overlaps_strict cursor (cursor + jd)
                (b.busy_start - bd) (b.busy_stop + bd)) = false := by
              simpa using hany
            have := List.any_eq_false.mp hfalse b hb
            simpa using this
          · exact ih _ _ hrest s hmem b hb
    · rw [Option.some.injEq] at h
      subst h
      intro s hs
      exact absurd hs (List.not_mem_nil s)

theorem slot_scan_now_irrel (jd bd de now1 now2 : ℤ) (busy : List BusyInterval)
    (sd : Bool) (hbd : 0 ≤ bd) :
    ∀ (fuel : ℕ) (cursor : ℤ), now1 < cursor + jd → now2 < cursor + jd →
      slot_scan jd bd now1 de busy sd fuel cursor
        = slot_scan jd bd now2 de busy sd fuel cursor := by
  intro fuel
  induction fuel with
  | zero => intro cursor _ _; rfl
  | succ n ih =>
    intro cursor h1 h2
    have hrec := ih (cursor + bd) (by omega) (by omega)
    rw [slot_scan, slot_scan, if_neg (by omega : ¬ cursor + jd ≤ now1),
      if_neg (by omega : ¬ cursor + jd ≤ now2), hrec]

theorem slot_scan_zero_step (jd now de : ℤ) (busy : List BusyInterval) (sd : Bool) :
    ∀ (fuel : ℕ) (cursor : ℤ), cursor + jd ≤ de →
      slot_scan jd 0 now de busy sd fuel cursor = none := by
  intro fuel
  induction fuel with
  | zero => intro cursor _; rfl
  | succ n ih =>
    intro cursor h
    have hrec : slot_scan jd 0 now de busy sd n (cursor + 0) = none := by
      rw [add_zero]; exact ih cursor h
    rw [slot_scan, if_pos h, hrec]
    split
    · rfl
    · split
      · rfl
      · rfl

theorem c8_scan_eval (b : Bool) :
    slot_scan 120 30 0 1140 [] b 20 480 = some (c8_slots b) := by
  cases b <;> with_unfolding_all decide

/-- Claim C7: every slot emitted by the availability query avoids (in the
sense of strict interval overlap) every fetched busy interval expanded by
the buffer on both ends. -/
theorem c7_no_buffered_overlap (ε : Type) (fuel : ℕ) (busy : List BusyInterval)
    (sdate : CalDate) (today now jd bd : ℤ) (slots : List Slot)
    (h : get_available_slots_for_date fuel
        (Except.ok busy : Except ε (List BusyInterval)) sdate today now jd bd
      = some (Except.ok slots)) :
    ∀ s ∈ slots, ∀ b ∈ busy,
      overlaps_strict s.slot_start s.slot_stop
        (b.busy_start - bd) (b.busy_stop + bd) = false := by
  rw [get_avail_ok] at h
  rcases Option.map_eq_some'.mp h with ⟨l, hl, hcast⟩
  have hls : l = slots := by
    injection hcast
  subst hls
  exact slot_scan_no_overlap jd bd now 1140 busy _ fuel 480 l hl

/-- Witness for C7: with the busy interval 10:00-11:00 and a 30-minute
buffer, the first emitted slot 11:30-13:30 does not overlap the buffered
interval [09:30, 11:30]. -/
theorem c7_no_buffered_overlap_witness :
    overlaps_strict 690 810 (600 - 30) (660 + 30) = false :=
  c7_no_buffered_overlap Unit 20 c7_busy ⟨0, 0⟩ 1 0 120 30 c7_slots
    (by rw [get_avail_ok]; with_unfolding_all decide)
    ⟨690, 810, false, false⟩ (by with_unfolding_all decide)
    ⟨600, 660⟩ (by with_unfolding_all decide)

/-- Claim C8 (amended): on an open day scanned 08:00-19:00 with a 120-minute
job, 30-minute buffer and no busy intervals, provided the query time is
before 10:00 of that day (in particular on any future day), the result is a
non-empty chronological slot list starting at 08:00 whose slots all end by
19:00. -/
theorem c8_open_day_slots (sdate : CalDate) (today now : ℤ) (h : now < 600) :
    ∃ slots : List Slot,
      get_available_slots_for_date 20
          (Except.ok [] : Except Unit (List BusyInterval)) sdate today now 120 30
        = some (Except.ok slots)
      ∧ slots ≠ []
      ∧ slots.head?.map Slot.slot_start = some 480
      ∧ (∀ s ∈ slots, s.slot_stop ≤ 1140)
      ∧ slots.Pairwise (fun a b => a.slot_start < b.slot_start) := by
  refine ⟨c8_slots (decide (sdate.day = today)), ?_, ?_, ?_, ?_, ?_⟩
  · rw [get_avail_ok,
      slot_scan_now_irrel 120 30 1140 now 0 [] (decide (sdate.day = today))
        (by norm_num) 20 480 (by omega) (by omega),
      c8_scan_eval]
    rfl
  · cases decide (sdate.day = today) <;> with_unfolding_all decide
  · cases decide (sdate.day = today) <;> with_unfolding_all decide
  · cases decide (sdate.day = today) <;> with_unfolding_all decide
  · cases decide (sdate.day = today) <;> with_unfolding_all decide

/-- Witness for the amended C8 on a future day (query at midnight-relative
time 479, i.e. before 10:00). -/
theorem c8_open_day_slots_witness :
    ∃ slots : List Slot,
      get_available_slots_for_date 20
          (Except.ok [] : Except Unit (List BusyInterval)) ⟨0, 0⟩ 1 479 120 30
        = some (Except.ok slots)
      ∧ slots ≠ []
      ∧ slots.head?.map Slot.slot_start = some 480
      ∧ (∀ s ∈ slots, s.slot_stop ≤ 1140)
      ∧ slots.Pairwise (fun a b => a.slot_start < b.slot_start) :=
  c8_open_day_slots ⟨0, 0⟩ 1 479 (by norm_num)

/-- Counterexample for C8 as stated: on the queried day itself at 19:00
every candidate slot is already past, so the result is empty rather than a
list starting at 08:00. -/
theorem c8_late_now_counterexample :
    get_available_slots_for_date 20
        (Except.ok [] : Except Unit (List BusyInterval)) ⟨0, 0⟩ 0 1140 120 30
      = some (Except.ok ([] : List Slot)) := by
  rw [get_avail_ok]
  with_unfolding_all decide

/-- Claim C9: no configuration validation exists; with `buffer_min = 0` the
candidate scan never advances its cursor, so for every amount of fuel the
scan fails to terminate (the Python loop runs forever). -/
theorem c9_zero_buffer_never_terminates (ε : Type) (fuel : ℕ)
    (busy : List BusyInterval) (sdate : CalDate) (today now : ℤ) :
    get_available_slots_for_date fuel
        (Except.ok busy : Except ε (List BusyInterval)) sdate today now 120 0
      = none := by
  rw [get_avail_ok, slot_scan_zero_step 120 now 1140 busy _ fuel 480 (by norm_num)]
  rfl

/-- Claim C10: with the shipped configuration (no blackout dates, business
hours on all seven weekdays) every invocation reaches the busy-interval
fetch exactly once, and a fetch failure is returned unmodified, never as an
empty slot list. -/
theorem c10_single_fetch_and_propagation (ε : Type) (sdate : CalDate) :
    busy_fetch_count sdate = 1
    ∧ ∀ (e : ε) (fuel : ℕ) (today now jd bd : ℤ),
        get_available_slots_for_date fuel (Except.error e) sdate today now jd bd
          = some (Except.error e) := by
  constructor
  · unfold busy_fetch_count BLACKOUT_DATES BUSINESS_HOURS
    simp
  · intro e fuel today now jd bd
    exact get_avail_err fuel e sdate today now jd bd

/-! ## Claims C4 and C5 -/

theorem isIntVal_wall {b : ℚ} (w : String) (hb : IsIntVal b) :
    IsIntVal (adjust_for_wall_type b w) := by
  obtain ⟨z, rfl⟩ := hb
  rw [adjust_for_wall_type]
  split
  · exact ⟨z + 20, by push_cast; ring⟩
  · split
    · exact ⟨z + 30, by push_cast; ring⟩
    · exact ⟨z, rfl⟩

theorem isIntVal_conceal {b : ℚ} (c : String) (hb : IsIntVal b) :
    IsIntVal (adjust_for_concealment b c) := by
  obtain ⟨z, rfl⟩ := hb
  rw [adjust_for_concealment]
  split
  · exact ⟨z + 40, by push_cast; ring⟩
  · split
    · exact ⟨z + 80, by push_cast; ring⟩
    · exact ⟨z, rfl⟩

theorem isIntVal_addons {b : ℚ} (sb ld : Bool) (hb : IsIntVal b) :
    IsIntVal (price_tv_addons b sb ld) := by
  obtain ⟨z, rfl⟩ := hb
  unfold price_tv_addons
  refine isIntVal_add (isIntVal_add ⟨z, rfl⟩ ?_) ?_ <;> split
  · exact ⟨20, by norm_num⟩
  · exact ⟨0, by norm_num⟩
  · exact ⟨10, by norm_num⟩
  · exact ⟨0, by norm_num⟩

/-- Claim C4 (amended): the floating-shelves charges follow the stated
formulas only when the request's `shelves` boolean flag is set; with the
flag clear the install charge is dropped no matter the count. -/
theorem c4_shelves_pricing (r : ServiceRequest) (q : QuoteResult)
    (h : calculate_quote r = some q) :
    (r.shelves = true → 1 ≤ r.shelves_count →
      q.line_items.shelves_total
        = 60 * ((⌈((r.shelves_count : ℚ)) / 2⌉ : ℤ) : ℚ)
          + 5 * ((max 0 r.shelves_remove_count : ℤ) : ℚ)
      ∧ q.line_items.shelves_remove_total
        = 5 * ((max 0 r.shelves_remove_count : ℤ) : ℚ))
    ∧ (r.shelves = false →
      q.line_items.shelves_total = 5 * ((max 0 r.shelves_remove_count : ℤ) : ℚ)) := by
  have hst := (calculate_quote_fields r q h).2.1
  have hsr := (calculate_quote_fields r q h).2.2.1
  have hremval : shelves_remove_total r
      = 5 * ((max 0 r.shelves_remove_count : ℤ) : ℚ) := by
    unfold shelves_remove_total; ring
  constructor
  · intro hflag hcnt
    have hmax : max 0 r.shelves_count = r.shelves_count := max_eq_right (by omega)
    have hval : shelves_total r
        = 60 * ((⌈((r.shelves_count : ℚ)) / 2⌉ : ℤ) : ℚ)
          + 5 * ((max 0 r.shelves_remove_count : ℤ) : ℚ) := by
      unfold shelves_total shelves_price
      rw [if_pos ⟨by rw [hflag], by omega⟩, hmax, hremval]
    constructor
    · rw [hst, hval,
        round2_of_isIntVal ⟨60 * ⌈((r.shelves_count : ℚ)) / 2⌉
          + 5 * max 0 r.shelves_remove_count, by push_cast; ring⟩]
    · rw [hsr, hremval,
        round2_of_isIntVal ⟨5 * max 0 r.shelves_remove_count, by push_cast; ring⟩]
  · intro hflag
    have hprice : shelves_price r = 0 := by
      unfold shelves_price
      rw [if_neg]
      rintro ⟨hs, _⟩
      rw [hflag] at hs
      exact Bool.false_ne_true hs
    rw [hst]
    unfold shelves_total
    rw [hprice, zero_add, hremval,
      round2_of_isIntVal ⟨5 * max 0 r.shelves_remove_count, by push_cast; ring⟩]

/-- Counterexample for C4 as stated: one shelf requested by count with the
`shelves` flag off is priced $0, not `60 × ceil(1/2) = 60`. -/
theorem c4_shelves_flag_counterexample :
    (calculate_quote creq4x).map (fun q => q.line_items.shelves_total) = some 0
    ∧ ((0 : ℚ) ≠ 60 * ((⌈((creq4x.shelves_count : ℚ)) / 2⌉ : ℤ) : ℚ)) := by
  with_unfolding_all decide

/-- Witness for the amended C4: three installs and two removals with the
flag on. -/
theorem c4_shelves_pricing_witness :
    quote4w.line_items.shelves_total
      = 60 * ((⌈((creq4w.shelves_count : ℚ)) / 2⌉ : ℤ) : ℚ)
        + 5 * ((max 0 creq4w.shelves_remove_count : ℤ) : ℚ)
    ∧ quote4w.line_items.shelves_remove_total
      = 5 * ((max 0 creq4w.shelves_remove_count : ℤ) : ℚ) :=
  (c4_shelves_pricing creq4w quote4w (by with_unfolding_all decide)).1
    (by with_unfolding_all decide) (by with_unfolding_all decide)

/-- Claim C5 (amended): with no TVs requested, the TV line item still equals
the wall-type, concealment and add-on surcharges applied to a $0 base (so
it is 0 exactly when all those surcharges are 0, e.g. drywall, no
concealment, no soundbar, no LED), not 0 unconditionally. -/
theorem c5_no_tv_total_equals_surcharges (r : ServiceRequest) (q : QuoteResult)
    (h : calculate_quote r = some q)
    (hsz : r.tv_count ≤ 0 ∨ r.tv_size ≤ 0) (hrm : r.tv_remove_count ≤ 0) :
    q.line_items.tv_total
      = price_tv_addons
          (adjust_for_concealment (adjust_for_wall_type 0 r.wall_type)
            r.conceal_type) r.soundbar r.led := by
  have hempty := calculate_quote_some_tv_sizes_clean r q h
  have htv := (calculate_quote_fields r q h).1
  have hbase : base_tv_price r = 0 := by
    unfold base_tv_price
    rw [if_pos hempty, if_neg]
    rcases hsz with hc | hs
    · rintro ⟨_, h2⟩
      rw [max_eq_left hc] at h2
      exact lt_irrefl 0 h2
    · rintro ⟨h1, _⟩
      rw [max_eq_left hs] at h1
      exact lt_irrefl 0 h1
  have hrm0 : tv_remove_total r = 0 := by
    unfold tv_remove_total
    rw [max_eq_left hrm]
    norm_num
  have hval : tv_total r
      = price_tv_addons
          (adjust_for_concealment (adjust_for_wall_type 0 r.wall_type)
            r.conceal_type) r.soundbar r.led := by
    unfold tv_total tv_with_addons
    rw [hbase, hrm0, add_zero]
  rw [htv, hval,
    round2_of_isIntVal
      (isIntVal_addons _ _ (isIntVal_conceal _ (isIntVal_wall _ ⟨0, by norm_num⟩)))]

/-- Counterexample for C5 as stated: a brick wall with zero TVs still prices
the TV category at $20, not $0. -/
theorem c5_brick_no_tv_counterexample :
    (calculate_quote creq5x).map (fun q => q.line_items.tv_total) = some 20
    ∧ ((20 : ℚ) ≠ 0) := by
  with_unfolding_all decide

/-- Witness for the amended C5: stone wall, in-wall concealment and a
soundbar with zero TVs. -/
theorem c5_no_tv_total_equals_surcharges_witness :
    quote5w.line_items.tv_total
      = price_tv_addons
          (adjust_for_concealment (adjust_for_wall_type 0 creq5w.wall_type)
            creq5w.conceal_type) creq5w.soundbar creq5w.led :=
  c5_no_tv_total_equals_surcharges creq5w quote5w (by with_unfolding_all decide)
    (Or.inl (by with_unfolding_all decide)) (by with_unfolding_all decide)
